import Mathlib

/-!
Shallow embedding of the COMP2140 translink route-planner core
(`src/translink-parser.ts`, current iteration, and `src/dataframe.ts`,
current iteration) together with theorems settling the frozen claims.

Conventions of the embedding:
* A CSV/JSON record ("row") is an association list from field names to
  string values; a missing field models the JavaScript value `undefined`,
  so field access returns `Option String`.
* JavaScript `Date` instants are integers counting seconds since the Unix
  epoch.  The program is written for Brisbane (`Australia/Brisbane`,
  UTC+10, no daylight saving) and constructs every input date with an
  explicit `+10:00` offset, so the embedding fixes the runtime's local
  time zone at UTC+10.  All instants that the program constructs have zero
  milliseconds, so second resolution is exact.
* Code that can throw a `TypeError` (a property access on `undefined`) is
  embedded in `Except String`; a thrown exception is `.error`.
-/

/-- A record row: field name to string value, missing field = JS `undefined`. -/
abbrev Row := List (String × String)

/-- JS property access `row[k]`: `none` models `undefined`. -/
def getF (r : Row) (k : String) : Option String :=
  (r.find? (fun p => p.1 == k)).map (fun p => p.2)

/-- JS `a || b` on two possibly-undefined string values: the empty string and
`undefined` are falsy, every other string is truthy. -/
def jsOr (a b : Option String) : Option String :=
  match a with
  | some s => if s = "" then b else some s
  | none => b

/-- Value of a list of decimal digit characters. -/
def digitsToNat (cs : List Char) : Nat :=
  cs.foldl (fun n c => n * 10 + (c.toNat - 48)) 0

/-- Structural model of JS `String#split` with a one-character separator,
over the character list. -/
def splitChar (sep : Char) : List Char → List (List Char)
  | [] => [[]]
  | c :: cs =>
    if c = sep then [] :: splitChar sep cs
    else
      match splitChar sep cs with
      | [] => [[c]]
      | h :: t => (c :: h) :: t

/-- JS `s.split(sep)` for a one-character separator (the program only splits
on `':'` and `'-'`). -/
def jsSplit (s : String) (sep : Char) : List String :=
  (splitChar sep s.data).map (fun cs => ⟨cs⟩)

/-- Models JS `Number(s)` on the unsigned-integer strings that occur in these
GTFS tables (`"10"`, `"05"`, stop sequences, direction flags): digit strings
parse to their value, the empty string to `0` (as in JS), and everything else
to `NaN`, modelled as `none`.  `Number(undefined)` is `NaN`, obtained through
`Option.bind`. -/
def jsNumber (s : String) : Option Int :=
  if s = "" then some 0
  else if s.data.all Char.isDigit then some (digitsToNat s.data) else none

/-- Models JS `parseInt(s)` on the epoch-second strings of the realtime feed:
a maximal leading run of digits parses to its value, otherwise `NaN`. -/
def jsParseInt (s : String) : Option Int :=
  let t := s.data.takeWhile Char.isDigit
  if t.isEmpty then none else some (digitsToNat t)

/-- Models JS `parseFloat(s)` on the values these tables sort by
(unsigned-integer strings such as stop sequences and direction flags):
digit strings parse, everything else is `NaN` (`none`).  `parseFloat` of
`undefined` is `NaN`, obtained through `Option.bind`. -/
def jsParseFloat (s : String) : Option Int :=
  if !s.data.isEmpty && s.data.all Char.isDigit then some (digitsToNat s.data) else none

/-- JS `<` on two possibly-undefined string values: string comparison is
lexicographic; any comparison involving `undefined` is false. -/
def jsLess (a b : Option String) : Bool :=
  match a, b with
  | some x, some y => decide (x < y)
  | _, _ => false

/-! ## The tabular store (`src/dataframe.ts`, current iteration) -/

/-- `Dataframe`: an ordered collection of rows (`this.data`). -/
structure Dataframe where
  data : List Row
deriving Repr, DecidableEq

/-- `filter(criteria)`: rows satisfying the predicate, order preserved. -/
def Dataframe.filter (df : Dataframe) (criteria : Row → Bool) : Dataframe :=
  ⟨df.data.filter criteria⟩

/-- Object spread `{ ...l, ...r }`: the keys of `l` first (values overridden
by `r` where both have the key), then the keys of `r` not in `l`. -/
def mergeRows (l r : Row) : Row :=
  l.map (fun p => match getF r p.1 with
    | some v => (p.1, v)
    | none => p)
  ++ r.filter (fun p => (getF l p.1).isNone)

/-- `join(other, key, keepUnmatched)`: for each left row, one merged row per
right row whose `key` field is `===`-equal (including the case where both
are `undefined`); an unmatched left row is kept unmerged only when
`keepUnmatched`. -/
def Dataframe.join (df other : Dataframe) (key : String) (keepUnmatched : Bool) : Dataframe :=
  ⟨df.data.flatMap (fun row =>
    let matchingRows := other.data.filter (fun otherRow => getF otherRow key == getF row key)
    if matchingRows.length > 0 then
      matchingRows.map (fun matchingRow => mergeRows row matchingRow)
    else if keepUnmatched then [row]
    else [])⟩

/-- `select(columns)`: per-row projection onto the listed columns, silently
omitting columns the row does not have. -/
def Dataframe.select (df : Dataframe) (columns : List String) : Dataframe :=
  ⟨df.data.map (fun row => columns.filterMap (fun c => (getF row c).map (fun v => (c, v))))⟩

/-- Worker for `distinct`: the `seen` set of already-emitted key values. -/
def distinctAux (column : String) : List Row → List (Option String) → List Row
  | [], _ => []
  | r :: rs, seen =>
    let k := getF r column
    if seen.contains k then distinctAux column rs seen
    else r :: distinctAux column rs (k :: seen)

/-- `distinct(column)`: first-occurrence-wins deduplication by the value of
`column` (a JS `Set` of values, `undefined` included). -/
def Dataframe.distinct (df : Dataframe) (column : String) : Dataframe :=
  ⟨distinctAux column df.data []⟩

/-- The sort comparator of `sort(key, ascending)`: numeric difference when
both values `parseFloat`, otherwise JS string comparison. -/
def jsCompare (key : String) (ascending : Bool) (a b : Row) : Int :=
  let av := (getF a key).bind jsParseFloat
  let bv := (getF b key).bind jsParseFloat
  match av, bv with
  | some x, some y => if ascending then x - y else y - x
  | _, _ =>
    if jsLess (getF a key) (getF b key) then (if ascending then -1 else 1)
    else if jsLess (getF b key) (getF a key) then (if ascending then 1 else -1)
    else 0

/-- Stable insertion of one row into an already-sorted list: the new row goes
after every row that compares strictly before it (JS `Array#sort` stability). -/
def insertRow (lt : Row → Row → Bool) (x : Row) : List Row → List Row
  | [] => [x]
  | y :: ys => if lt y x then y :: insertRow lt x ys else x :: y :: ys

/-- Stable sort of the rows by the given strict comparator. -/
def sortRows (lt : Row → Row → Bool) (l : List Row) : List Row :=
  l.foldr (insertRow lt) []

/-- `sort(key, ascending)`: stable sort by the comparator above. -/
def Dataframe.sort (df : Dataframe) (key : String) (ascending : Bool) : Dataframe :=
  ⟨sortRows (fun a b => jsCompare key ascending a b < 0) df.data⟩

/-! ## Calendar arithmetic for the JS `Date` model

An instant is an `Int` of seconds since the Unix epoch; the runtime's local
time zone is fixed at UTC+10 (Brisbane, no daylight saving). -/

/-- Seconds in the fixed UTC+10 offset. -/
def tzOffset : Int := 36000

/-- Days since the epoch of the Gregorian date (y, m, d)
(standard civil-from-date conversion, valid for all dates). -/
def daysFromCivil (y m d : Int) : Int :=
  let y2 := if m ≤ 2 then y - 1 else y
  let era := y2.fdiv 400
  let yoe := y2 - era * 400
  let doy := (153 * (if m > 2 then m - 3 else m + 9) + 2).fdiv 5 + d - 1
  let doe := yoe * 365 + yoe.fdiv 4 - yoe.fdiv 100 + doy
  era * 146097 + doe - 719468

/-- Gregorian date (y, m, d) of a count of days since the epoch. -/
def civilFromDays (z0 : Int) : Int × Int × Int :=
  let z := z0 + 719468
  let era := z.fdiv 146097
  let doe := z - era * 146097
  let yoe := (doe - doe.fdiv 1460 + doe.fdiv 36524 - doe.fdiv 146096).fdiv 365
  let y := yoe + era * 400
  let doy := doe - (365 * yoe + yoe.fdiv 4 - yoe.fdiv 100)
  let mp := (5 * doy + 2).fdiv 153
  let d := doy - (153 * mp + 2).fdiv 5 + 1
  let m := if mp < 10 then mp + 3 else mp - 9
  (if m ≤ 2 then y + 1 else y, m, d)

/-- Zero-padded two-digit rendering of a small nonnegative integer. -/
def pad2 (n : Int) : String :=
  if n.toNat < 10 then "0" ++ toString n.toNat else toString n.toNat

/-- Zero-padded four-digit rendering (year field of `toISOString`). -/
def pad4 (n : Int) : String :=
  let k := n.toNat
  (if k < 10 then "000" else if k < 100 then "00" else if k < 1000 then "0" else "")
    ++ toString k

/-- The instant of `new Date("y-m-dThh:mm:ss+10:00")`:
local (UTC+10) civil time to epoch seconds. -/
def mkInstant (y m d hh mm ss : Int) : Int :=
  daysFromCivil y m d * 86400 + hh * 3600 + mm * 60 + ss - tzOffset

/-- `date.toISOString().split('T')[0]` with the hyphens then removed by
`.replace`: the UTC calendar date of an instant as the compact `YYYYMMDD` key. -/
def utcDateString (t : Int) : String :=
  match civilFromDays (t.fdiv 86400) with
  | (y, m, d) => pad4 y ++ pad2 m ++ pad2 d

/-- `date.getDay()` in the local (UTC+10) time zone: 0 = Sunday … 6 = Saturday
(the epoch day 1970-01-01 was a Thursday). -/
def getDayLocal (t : Int) : Int :=
  ((t + tzOffset).fdiv 86400 + 4).emod 7

/-- The weekday-name index used by `isServiceRunning`. -/
def weekdayName (t : Int) : String :=
  ["sunday", "monday", "tuesday", "wednesday", "thursday", "friday", "saturday"
    ].getD (getDayLocal t).toNat ""

/-- Copy of an instant with its local hours/minutes replaced and
seconds/milliseconds zeroed: `new Date(t)` followed by
`setHours(h, m, 0, 0)` (hours ≥ 24 roll into following days, as in JS). -/
def setHoursLocal (t h m : Int) : Int :=
  ((t + tzOffset).fdiv 86400) * 86400 - tzOffset + h * 3600 + m * 60

/-- Whether (y, m, d) is a real Gregorian calendar date. -/
def validCivil (y m d : Int) : Bool :=
  let leap := (y.emod 4 == 0 && y.emod 100 != 0) || y.emod 400 == 0
  let dim : Int :=
    if m == 2 then (if leap then 29 else 28)
    else if m == 4 || m == 6 || m == 9 || m == 11 then 30 else 31
  1 ≤ m && m ≤ 12 && 1 ≤ d && d ≤ dim

/-- Models `new Date(s.replace(/(\d{4})(\d{2})(\d{2})/, '$1-$2-$3'))` on the
GTFS calendar date fields: an 8-digit string naming a real date becomes the
ISO form and parses to UTC midnight of that date; anything else yields an
Invalid Date (`none`; every comparison against it is false). -/
def parseDateUTC (s : String) : Option Int :=
  if s.data.length = 8 ∧ s.data.all Char.isDigit then
    let y : Int := (digitsToNat (s.data.take 4) : Nat)
    let m : Int := (digitsToNat ((s.data.drop 4).take 2) : Nat)
    let d : Int := (digitsToNat (s.data.drop 6) : Nat)
    if validCivil y m d then some (daysFromCivil y m d * 86400) else none
  else none

/-- `new Date(sec * 1000).toLocaleTimeString('en-AU', { timeZone:
'Australia/Brisbane', hour: '2-digit', minute: '2-digit', hour12: false })`:
the local wall-clock `HH:mm` of an epoch-second instant. -/
def localHM (sec : Int) : String :=
  let loc := sec + tzOffset
  let h := (loc.emod 86400).fdiv 3600
  let m := (loc.emod 3600).fdiv 60
  pad2 h ++ ":" ++ pad2 m

/-! ## Route id matching (`matchRouteIds`) -/

/-- `matchRouteIds`: route ids match when the substrings before the first
hyphen (`split('-')[0]`) are equal. -/
def matchRouteIds (staticRouteId realtimeRouteId : String) : Bool :=
  (jsSplit staticRouteId '-').headD "" == (jsSplit realtimeRouteId '-').headD ""

/-! ## Route topology (`getRouteStops`) -/

/-- Everything `getRouteStops` computes before the closed-loop collapse:
resolve the route row by short name, collect its trips' stop-times joined
with trip and stop details, sort by `direction_id` then re-sort (stably) by
`stop_sequence`, and concatenate the per-direction `distinct('stop_id')`
projections outbound-then-inbound.  An unknown route short name yields `[]`
(the source returns `[]` before ever combining). -/
def getRouteStopsCombined (route : String)
    (routesDF stopsDF stopTimesDF tripsDF : Dataframe) : List Row :=
  match (routesDF.filter (fun row => getF row "route_short_name" == some route)).data.head? with
  | none => []
  | some routeInfo =>
    let routeTrips := tripsDF.filter (fun row => getF row "route_id" == getF routeInfo "route_id")
    let stopTimesWithTrips := stopTimesDF.join routeTrips "trip_id" false
    let allStopTimes := (stopTimesWithTrips.join stopsDF "stop_id" false).select
      ["stop_id", "stop_name", "stop_sequence", "direction_id"]
    let sortedStopTimes := ((Dataframe.mk allStopTimes.data).sort "direction_id" true).sort
      "stop_sequence" true
    let outboundStops := ((sortedStopTimes.filter
      (fun row => getF row "direction_id" == some "0")).distinct "stop_id").data
    let inboundStops := ((sortedStopTimes.filter
      (fun row => getF row "direction_id" == some "1")).distinct "stop_id").data
    outboundStops ++ inboundStops

/-- `getRouteStops`: the combined stop list with the final entry dropped when
the list is nonempty and its first and last entries share a `stop_id`
(`combinedStops.length > 0 && combinedStops[0].stop_id ===
combinedStops[combinedStops.length - 1].stop_id`, then `pop()`). -/
def getRouteStops (route : String)
    (routesDF stopsDF stopTimesDF tripsDF : Dataframe) : List Row :=
  let combinedStops := getRouteStopsCombined route routesDF stopsDF stopTimesDF tripsDF
  match combinedStops.head?, combinedStops.getLast? with
  | some first, some last =>
    if getF first "stop_id" == getF last "stop_id" then combinedStops.dropLast
    else combinedStops
  | _, _ => combinedStops

/-! ## Service calendar (`isServiceRunning`, hoisted from its closure inside
`filterTripsForUpcomingDepartures`) -/

/-- `isServiceRunning(serviceId, date)`: a calendar-exception row for the
service and the UTC date key short-circuits to `exception_type === '1'`;
otherwise the first weekly calendar row decides by comparing the instant
against the UTC midnights parsed from `start_date`/`end_date` and testing the
local weekday's flag.  Reading `start_date`/`end_date` off a calendar row
that lacks them throws (`.replace` on `undefined`). -/
def isServiceRunning (calendarDF calendarDatesDF : Dataframe)
    (serviceId : Option String) (date : Int) : Except String Bool :=
  let dayOfWeek := weekdayName date
  let dateString := utcDateString date
  match (calendarDatesDF.filter (fun row =>
      getF row "service_id" == serviceId && getF row "date" == some dateString)).data.head? with
  | some exceptionRow => .ok (getF exceptionRow "exception_type" == some "1")
  | none =>
    match (calendarDF.filter (fun row => getF row "service_id" == serviceId)).data.head? with
    | none => .ok false
    | some serviceCalendar =>
      match getF serviceCalendar "start_date" with
      | none => .error "TypeError: cannot read replace of undefined"
      | some sd =>
        match getF serviceCalendar "end_date" with
        | none => .error "TypeError: cannot read replace of undefined"
        | some ed =>
          .ok (match parseDateUTC sd, parseDateUTC ed with
            | some startDate, some endDate =>
              (decide (startDate ≤ date) && decide (date ≤ endDate))
                && (getF serviceCalendar dayOfWeek == some "1")
            | _, _ => false)

/-! ## Departure window filter (`filterTripsForUpcomingDepartures`) -/

/-- `Array#filter` with a callback that can throw: the callback runs left to
right and a thrown exception aborts the whole filter. -/
def filterE (p : Row → Except String Bool) : List Row → Except String (List Row)
  | [] => .ok []
  | x :: xs =>
    match p x with
    | .error e => .error e
    | .ok b =>
      match filterE p xs with
      | .error e => .error e
      | .ok rest => .ok (if b then x :: rest else rest)

/-- The filter callback of `filterTripsForUpcomingDepartures`: at the origin
stop, resolve the trip (absent trip or inactive service excludes the row),
resolve the trip's route row — read without a null check, so a trip whose
`route_id` matches no route row throws — require the requested short name,
then parse the departure clock string (falling back to arrival) as HH:MM,
zero the seconds onto `now`'s local date, and test the closed window. -/
def departureWindowPred (tripsDF routesDF : Dataframe) (route : String)
    (startStop : Row) (currentDateTime tenMinutesLater : Int)
    (calendarDF calendarDatesDF : Dataframe) (row : Row) : Except String Bool :=
  if getF row "stop_id" == getF startStop "stop_id" then
    match (tripsDF.filter (fun t => getF t "trip_id" == getF row "trip_id")).data.head? with
    | none => .ok false
    | some trip =>
      match isServiceRunning calendarDF calendarDatesDF (getF trip "service_id")
        currentDateTime with
      | .error e => .error e
      | .ok false => .ok false
      | .ok true =>
        match (routesDF.filter (fun r => getF r "route_id" == getF trip "route_id")).data.head? with
        | none => .error "TypeError: cannot read route_short_name of undefined"
        | some routeInfo =>
          if !(getF routeInfo "route_short_name" == some route) then .ok false
          else
            match jsOr (getF row "departure_time") (getF row "arrival_time") with
            | none => .error "TypeError: cannot read split of undefined"
            | some departureTime =>
              let parts := jsSplit departureTime ':'
              match (parts.get? 0).bind jsNumber, (parts.get? 1).bind jsNumber with
              | some hours, some minutes =>
                let departureDateTime := setHoursLocal currentDateTime hours minutes
                .ok (decide (currentDateTime ≤ departureDateTime)
                  && decide (departureDateTime ≤ tenMinutesLater))
              | _, _ => .ok false
  else .ok false

/-- One element of the result list: the origin stop-time row, the same trip's
stop-time at the destination (if any), and the trip's route id
(`trip ? trip.route_id : ''`). -/
structure TripCandidate where
  startStopTime : Row
  endStopTime : Option Row
  routeId : Option String
deriving Repr, DecidableEq

/-- The final `map` of `filterTripsForUpcomingDepartures`. -/
def mkTripCandidate (stopTimesDF tripsDF : Dataframe) (endStop : Row)
    (startStopTime : Row) : TripCandidate :=
  let trip := (tripsDF.filter (fun t =>
    getF t "trip_id" == getF startStopTime "trip_id")).data.head?
  let endStopTime := (stopTimesDF.filter (fun st =>
    getF st "trip_id" == getF startStopTime "trip_id"
      && getF st "stop_id" == getF endStop "stop_id")).data.head?
  { startStopTime := startStopTime
    endStopTime := endStopTime
    routeId := match trip with
      | some t => getF t "route_id"
      | none => some "" }

/-- `filterTripsForUpcomingDepartures`: the ten-minute lookahead window is
`[now, now + 600 s]`; the origin stop-times passing `departureWindowPred` are
mapped to `TripCandidate`s. -/
def filterTripsForUpcomingDepartures (stopTimesDF tripsDF routesDF : Dataframe)
    (route : String) (startStop endStop : Row) (currentDateTime : Int)
    (calendarDF calendarDatesDF : Dataframe) : Except String (List TripCandidate) :=
  let tenMinutesLater := currentDateTime + 600
  match filterE
    (departureWindowPred tripsDF routesDF route startStop currentDateTime tenMinutesLater
      calendarDF calendarDatesDF) stopTimesDF.data with
  | .error e => .error e
  | .ok filteredStopTimes =>
    .ok (filteredStopTimes.map (mkTripCandidate stopTimesDF tripsDF endStop))

/-! ## Live correlator (`matchLiveData`, current iteration)

The realtime feed entries are loosely typed JSON; every nested field is
optional (`none` = the field is absent / `undefined`). -/

/-- The `trip` descriptor of a trip update or vehicle position. -/
structure LiveTripDescriptor where
  tripId : Option String
  routeId : Option String
deriving Repr, DecidableEq

/-- An `arrival` or `departure` prediction object. -/
structure LivePrediction where
  time : Option String
deriving Repr, DecidableEq

/-- One element of a `stopTimeUpdate` list. -/
structure LiveStopTimeUpdate where
  stopId : Option String
  arrival : Option LivePrediction
  departure : Option LivePrediction
deriving Repr, DecidableEq

/-- The `tripUpdate` object of a feed entity. -/
structure LiveTripUpdate where
  trip : Option LiveTripDescriptor
  stopTimeUpdate : Option (List LiveStopTimeUpdate)
deriving Repr, DecidableEq

/-- One entity of the trip-updates feed. -/
structure LiveEntity where
  tripUpdate : Option LiveTripUpdate
deriving Repr, DecidableEq

/-- The geographic `position` of a vehicle, carried in its rendered decimal
form (the program only ever interpolates the numbers into a string). -/
structure LivePosition where
  latitude : String
  longitude : String
deriving Repr, DecidableEq

/-- The `vehicle` object of a vehicle-position entity. -/
structure VehicleInner where
  trip : Option LiveTripDescriptor
  position : Option LivePosition
deriving Repr, DecidableEq

/-- One entity of the vehicle-positions feed. -/
structure VehicleEntity where
  vehicle : Option VehicleInner
deriving Repr, DecidableEq

/-- The record `matchLiveData` returns. -/
structure LiveResult where
  liveArrivalTime : String
  livePosition : String
deriving Repr, DecidableEq

/-- `Array#find` with a predicate that can throw
(`position.vehicle.trip.tripId` is read without null checks): entries are
tested left to right and entries after the first match are never touched. -/
def findE (p : VehicleEntity → Except String Bool) :
    List VehicleEntity → Except String (Option VehicleEntity)
  | [] => .ok none
  | x :: xs =>
    match p x with
    | .error e => .error e
    | .ok true => .ok (some x)
    | .ok false => findE p xs

/-- The predicate of the trip-update `find`: `update.tripUpdate` and
`update.tripUpdate.trip` present, and `tripId`/`routeId` exactly equal to the
queried ones. -/
def tripUpdateMatches (tripId routeId : String) (update : LiveEntity) : Bool :=
  match update.tripUpdate with
  | none => false
  | some inner =>
    match inner.trip with
    | none => false
    | some tr => tr.tripId == some tripId && tr.routeId == some routeId

/-- `matchLiveData(tripUpdates, vehiclePositions, stopTime, routeId, tripId)`
(current iteration): a null feed short-circuits to the `'N/A'` sentinels;
otherwise the first entity whose trip descriptor `===`-matches both ids is
selected; its `stopTimeUpdate` list (read without a null check — absent list
throws) is searched for the target stop, whose truthy `arrival.time` or
`departure.time` is rendered as a local clock time; independently the first
vehicle position with the same two ids (accessed without null checks)
supplies `"lat, lon"`. -/
def matchLiveData (tripUpdates : Option (List LiveEntity))
    (vehiclePositions : Option (List VehicleEntity)) (stopTime : Row)
    (routeId : String) (tripId : String) : Except String LiveResult :=
  match tripUpdates, vehiclePositions with
  | none, _ => .ok ⟨"N/A", "N/A"⟩
  | some _, none => .ok ⟨"N/A", "N/A"⟩
  | some tus, some vps =>
    match tus.find? (tripUpdateMatches tripId routeId) with
    | none => .ok ⟨"N/A", "N/A"⟩
    | some relevantTripUpdate =>
      match relevantTripUpdate.tripUpdate with
      | none => .error "TypeError: cannot read stopTimeUpdate of undefined"
      | some inner =>
        match inner.stopTimeUpdate with
        | none => .error "TypeError: cannot read find of undefined"
        | some stus =>
          let stu := stus.find? (fun s => s.stopId == getF stopTime "stop_id")
          let timeOpt := jsOr (stu.bind (fun s => s.arrival.bind (fun a => a.time)))
            (stu.bind (fun s => s.departure.bind (fun d => d.time)))
          let liveArrivalTime :=
            match timeOpt with
            | some ts =>
              if ts = "" then "N/A"
              else
                match jsParseInt ts with
                | some n => localHM n
                | none => "Invalid Date"
            | none => "N/A"
          match findE (fun position =>
            match position.vehicle with
            | none => .error "TypeError: cannot read trip of undefined"
            | some v =>
              match v.trip with
              | none => .error "TypeError: cannot read tripId of undefined"
              | some tr => .ok (tr.tripId == some tripId && tr.routeId == some routeId)) vps with
          | .error e => .error e
          | .ok posFound =>
            match posFound with
            | none => .ok ⟨liveArrivalTime, "N/A"⟩
            | some p =>
              match p.vehicle with
              | none => .error "TypeError: cannot read position of undefined"
              | some v =>
                match v.position with
                | none => .error "TypeError: cannot read latitude of undefined"
                | some pos => .ok ⟨liveArrivalTime, pos.latitude ++ ", " ++ pos.longitude⟩

/-! ## Travel time (`calculateTravelTime`, current iteration) -/

/-- The rendering tail of `calculateTravelTime`: floor-divide the minute
count, omit the hour term when the hour count is zero, pluralize each unit
unless its value is 1.  (`ediv`/`emod` agree with `Math.floor` division and
JS `%` on the nonnegative counts that reach this point.) -/
def travelTimeRender (diffMinutes : Int) : String :=
  let hours := diffMinutes / 60
  let minutes := diffMinutes % 60
  if hours = 0 then
    toString minutes.toNat ++ " minute" ++ (if minutes ≠ 1 then "s" else "")
  else
    toString hours.toNat ++ " hour" ++ (if hours ≠ 1 then "s" else "")
      ++ " " ++ toString minutes.toNat ++ " minute" ++ (if minutes ≠ 1 then "s" else "")

/-- The arithmetic core of `calculateTravelTime` after destructuring:
`((endH*60+endM) - (startH*60+startM) + 1440) % 1440`, a zero difference
promoted to a full day. -/
def travelTimeCore (startHours startMinutes endHours endMinutes : Int) : String :=
  let diffMinutes0 := ((endHours * 60 + endMinutes)
    - (startHours * 60 + startMinutes) + 1440) % 1440
  travelTimeRender (if diffMinutes0 = 0 then 1440 else diffMinutes0)

/-- `calculateTravelTime(startTime, endTime)`: both arguments split on `':'`
and their first two components passed through `Number`; a `NaN` anywhere
produces the JS `NaN` rendering. -/
def calculateTravelTime (startTime endTime : String) : String :=
  let sp := jsSplit startTime ':'
  let ep := jsSplit endTime ':'
  match (sp.get? 0).bind jsNumber, (sp.get? 1).bind jsNumber,
      (ep.get? 0).bind jsNumber, (ep.get? 1).bind jsNumber with
  | some sh, some sm, some eh, some em => travelTimeCore sh sm eh em
  | _, _, _, _ => "NaN hours NaN minutes"

/-! ## Claim-side reference definitions (written from the spec's words, for
the refinement claims) -/

/-- Modelled from the spec: the minute count of C6, `(end − start + 1440) mod
1440` with a zero result treated as 1440 minutes. -/
def claimTravelMinutes (startTotal endTotal : Nat) : Nat :=
  let base := (endTotal + 1440 - startTotal) % 1440
  if base = 0 then 1440 else base

/-- Modelled from the spec: the C6 rendering, `H hour(s) M minute(s)` with
the hour term omitted exactly when the hour count is zero and each unit
pluralized unless its value is 1. -/
def claimRender (d : Nat) : String :=
  let h := d / 60
  let m := d % 60
  (if h = 0 then "" else toString h ++ " hour" ++ (if h = 1 then "" else "s") ++ " ")
    ++ toString m ++ " minute" ++ (if m = 1 then "" else "s")

/-- Modelled from the spec (amended C2): an entry is a candidate exactly when
its trip descriptor is present and both its trip id and its route id are
strictly equal to the queried ones. -/
def claimExactMatch (update : LiveEntity) (routeId tripId : String) : Bool :=
  match update.tripUpdate with
  | none => false
  | some inner =>
    match inner.trip with
    | none => false
    | some tr => tr.tripId == some tripId && tr.routeId == some routeId

/-! ## Concrete tables and feed entities used to evaluate the functions -/

/-- A stop-time row departing one second past the window end. -/
def rowDep100501 : Row := [("trip_id", "t1"), ("stop_id", "1"), ("departure_time", "10:05:01")]

/-- Stop-times table holding only `rowDep100501`. -/
def exStopTimes : Dataframe := ⟨[rowDep100501]⟩

/-- A stop-time row departing exactly at the window start. -/
def rowDep100000 : Row := [("trip_id", "t1"), ("stop_id", "1"), ("departure_time", "10:00:00")]

/-- Stop-times table holding only `rowDep100000`. -/
def exStopTimesOnTime : Dataframe := ⟨[rowDep100000]⟩

/-- The trip row of trip `t1` on route `r66`, service `s1`. -/
def rowTripT1 : Row := [("trip_id", "t1"), ("route_id", "r66"), ("service_id", "s1")]

/-- Trips table holding only `rowTripT1`. -/
def exTrips : Dataframe := ⟨[rowTripT1]⟩

/-- A trips table whose only trip references route id `rX`, present in no
routes table. -/
def exTripsNoRoute : Dataframe := ⟨[[("trip_id", "t1"), ("route_id", "rX"), ("service_id", "s1")]]⟩

/-- The route row of route `r66`, short name `66`. -/
def rowRoute66 : Row := [("route_id", "r66"), ("route_short_name", "66")]

/-- Routes table holding only `rowRoute66`. -/
def exRoutes : Dataframe := ⟨[rowRoute66]⟩

/-- The weekly calendar row of service `s1`: Thursdays across 2024. -/
def rowCalS1 : Row :=
  [("service_id", "s1"), ("thursday", "1"), ("start_date", "20240101"), ("end_date", "20241231")]

/-- Calendar table holding only `rowCalS1`. -/
def exCalendar : Dataframe := ⟨[rowCalS1]⟩

/-- An empty calendar-exceptions table. -/
def exCalendarDates : Dataframe := ⟨[]⟩

/-- A weekly calendar row whose validity range is the single day 2024-08-29. -/
def exCalendarSameDay : Dataframe :=
  ⟨[[("service_id", "s1"), ("thursday", "1"),
     ("start_date", "20240829"), ("end_date", "20240829")]]⟩

/-- A weekly calendar row whose Thursday flag is 0. -/
def exCalendarNoThursday : Dataframe :=
  ⟨[[("service_id", "s1"), ("thursday", "0"),
     ("start_date", "20240101"), ("end_date", "20241231")]]⟩

/-- The calendar-exception row adding service `s1` on 2024-08-29. -/
def rowExceptionAdd : Row := [("service_id", "s1"), ("date", "20240829"), ("exception_type", "1")]

/-- Calendar-exceptions table holding only `rowExceptionAdd`. -/
def exCalendarDatesAdded : Dataframe := ⟨[rowExceptionAdd]⟩

/-- The origin stop selected in the examples. -/
def exStartStop : Row := [("stop_id", "1")]

/-- The destination stop selected in the examples. -/
def exEndStop : Row := [("stop_id", "2")]

/-- Routes table of the two-direction loop example. -/
def loopRoutes : Dataframe := ⟨[[("route_id", "r1"), ("route_short_name", "66")]]⟩

/-- Stops table of the loop example. -/
def loopStops : Dataframe :=
  ⟨[[("stop_id", "A"), ("stop_name", "Alpha")], [("stop_id", "B"), ("stop_name", "Beta")]]⟩

/-- Trips table of the loop example: one trip per direction. -/
def loopTrips : Dataframe :=
  ⟨[[("trip_id", "t0"), ("route_id", "r1"), ("direction_id", "0")],
    [("trip_id", "t1"), ("route_id", "r1"), ("direction_id", "1")]]⟩

/-- Stop-times of the loop example: outbound visits A then B, inbound visits
B then A, so both physical stops are served in both directions. -/
def loopStopTimes : Dataframe :=
  ⟨[[("trip_id", "t0"), ("stop_id", "A"), ("stop_sequence", "1")],
    [("trip_id", "t0"), ("stop_id", "B"), ("stop_sequence", "2")],
    [("trip_id", "t1"), ("stop_id", "B"), ("stop_sequence", "1")],
    [("trip_id", "t1"), ("stop_id", "A"), ("stop_sequence", "2")]]⟩

/-- Stop-times table producing a one-entry combined stop sequence. -/
def singleStopTimes : Dataframe := ⟨[[("trip_id", "t0"), ("stop_id", "A"), ("stop_sequence", "1")]]⟩

/-- The single combined row that `singleStopTimes` produces. -/
def rowSingleA : Row :=
  [("stop_id", "A"), ("stop_name", "Alpha"), ("stop_sequence", "1"), ("direction_id", "0")]

/-- The per-stop update list of the variant-route feed entity. -/
def stusVariant : List LiveStopTimeUpdate := [⟨some "1", some ⟨some "1724889600"⟩, none⟩]

/-- A trip-update entity for trip `t1` whose route id carries the static
variant suffix `66-3734`. -/
def tuVariantRoute : LiveEntity := ⟨some ⟨some ⟨some "t1", some "66-3734"⟩, some stusVariant⟩⟩

/-- A trip-update entity matching trip `t1` and route `66-3734` exactly whose
prediction at stop 1 is 10:00 local. -/
def tuExactA : LiveEntity :=
  ⟨some ⟨some ⟨some "t1", some "66-3734"⟩, some [⟨some "1", some ⟨some "1724889600"⟩, none⟩]⟩⟩

/-- A second exactly-matching trip-update entity whose prediction at stop 1
is 10:01 local, numerically closer to the scheduled 10:01:00. -/
def tuExactB : LiveEntity :=
  ⟨some ⟨some ⟨some "t1", some "66-3734"⟩, some [⟨some "1", some ⟨some "1724889660"⟩, none⟩]⟩⟩

/-- A trip-update entity matching trip `t1` on route `r1` that carries no
`stopTimeUpdate` list at all. -/
def tuNoStuList : LiveEntity := ⟨some ⟨some ⟨some "t1", some "r1"⟩, none⟩⟩

/-- The queried stop-time row of the live examples, scheduled 10:01:00. -/
def rowLiveStop : Row := [("stop_id", "1"), ("arrival_time", "10:01:00")]

/-! ## Theorems: helper lemmas for `distinct` -/

theorem distinctAux_cons_true (column : String) (x : Row) (xs : List Row)
    (seen : List (Option String)) (hc : seen.contains (getF x column) = true) :
    distinctAux column (x :: xs) seen = distinctAux column xs seen := by
  have h' : getF x column ∈ seen := by simpa using hc
  simp [distinctAux, h']

theorem distinctAux_cons_false (column : String) (x : Row) (xs : List Row)
    (seen : List (Option String)) (hc : seen.contains (getF x column) = false) :
    distinctAux column (x :: xs) seen
      = x :: distinctAux column xs (getF x column :: seen) := by
  have h' : getF x column ∉ seen := by simpa using hc
  simp [distinctAux, h']

theorem distinctAux_keys (column : String) :
    ∀ (l : List Row) (seen : List (Option String)),
      (distinctAux column l seen).Pairwise (fun a b => getF a column ≠ getF b column) ∧
      ∀ r ∈ distinctAux column l seen, seen.contains (getF r column) = false := by
  intro l
  induction l with
  | nil => intro seen; simp [distinctAux]
  | cons x xs ih =>
    intro seen
    cases hc : seen.contains (getF x column) with
    | true =>
      rw [distinctAux_cons_true column x xs seen hc]
      exact ih seen
    | false =>
      rw [distinctAux_cons_false column x xs seen hc]
      have ihx := ih (getF x column :: seen)
      have tailKeys : ∀ r ∈ distinctAux column xs (getF x column :: seen),
          (getF r column == getF x column) = false ∧
            seen.contains (getF r column) = false := by
        intro r hr
        have h2 := ihx.2 r hr
        rw [List.contains_cons] at h2
        exact ⟨(Bool.or_eq_false_iff.mp h2).1, (Bool.or_eq_false_iff.mp h2).2⟩
      refine ⟨List.Pairwise.cons ?_ ihx.1, ?_⟩
      · intro b hb
        have hne := (tailKeys b hb).1
        intro hEq
        rw [hEq] at hne
        simp at hne
      · intro r hr
        rcases hr with _ | hr
        · exact hc
        · exact (tailKeys r (by assumption)).2

theorem distinctAux_fixed (column : String) :
    ∀ (l : List Row) (seen : List (Option String)),
      l.Pairwise (fun a b => getF a column ≠ getF b column) →
      (∀ r ∈ l, seen.contains (getF r column) = false) →
      distinctAux column l seen = l := by
  intro l
  induction l with
  | nil => intro seen _ _; rfl
  | cons x xs ih =>
    intro seen hpw hseen
    have hx : seen.contains (getF x column) = false := hseen x (by simp)
    rw [distinctAux_cons_false column x xs seen hx]
    congr 1
    apply ih
    · exact hpw.of_cons
    · intro r hr
      have hne : getF x column ≠ getF r column := (List.pairwise_cons.mp hpw).1 r hr
      rw [List.contains_cons, Bool.or_eq_false_iff]
      constructor
      · exact beq_eq_false_iff_ne.mpr (fun h => hne h.symm)
      · exact hseen r (by simp [hr])

/-! ## Helper lemmas -/

theorem filterE_mem (p : Row → Except String Bool) :
    ∀ (l res : List Row), filterE p l = .ok res →
      ∀ a, a ∈ res ↔ a ∈ l ∧ p a = .ok true := by
  intro l
  induction l with
  | nil =>
    intro res h a
    simp only [filterE, Except.ok.injEq] at h
    subst h
    simp
  | cons x xs ih =>
    intro res h a
    rw [filterE] at h
    cases hpx : p x with
    | error e => rw [hpx] at h; cases h
    | ok b =>
      rw [hpx] at h
      cases hrest : filterE p xs with
      | error e => rw [hrest] at h; cases h
      | ok rest =>
        rw [hrest] at h
        cases h
        cases b with
        | true =>
          rw [if_pos rfl]
          constructor
          · intro hmem
            rcases List.mem_cons.mp hmem with rfl | hmem2
            · exact ⟨List.mem_cons_self _ _, hpx⟩
            · have h2 := (ih rest hrest a).mp hmem2
              exact ⟨List.mem_cons_of_mem _ h2.1, h2.2⟩
          · rintro ⟨hmem, hpa⟩
            rcases List.mem_cons.mp hmem with rfl | hmem2
            · exact List.mem_cons_self _ _
            · exact List.mem_cons_of_mem _ ((ih rest hrest a).mpr ⟨hmem2, hpa⟩)
        | false =>
          rw [if_neg (by simp)]
          constructor
          · intro hmem
            have h2 := (ih rest hrest a).mp hmem
            exact ⟨List.mem_cons_of_mem _ h2.1, h2.2⟩
          · rintro ⟨hmem, hpa⟩
            rcases List.mem_cons.mp hmem with rfl | hmem2
            · rw [hpa] at hpx; cases hpx
            · exact (ih rest hrest a).mpr ⟨hmem2, hpa⟩

theorem countP_le_one_of_pairwise (l : List Row) (c s : String)
    (hpw : l.Pairwise (fun a b => getF a c ≠ getF b c)) :
    l.countP (fun r => getF r c == some s) ≤ 1 := by
  induction l with
  | nil => simp
  | cons x xs ih =>
    rw [List.countP_cons]
    rcases List.pairwise_cons.mp hpw with ⟨hx, hxs⟩
    by_cases hpx : getF x c == some s
    · have hzero : xs.countP (fun r => getF r c == some s) = 0 := by
        rw [List.countP_eq_zero]
        intro b hb
        have hne := hx b hb
        intro hbs
        apply hne
        rw [beq_iff_eq] at hpx hbs
        rw [hpx, hbs]
      simp [hzero, hpx]
    · simp only [hpx]
      simpa using ih hxs

theorem distinct_countP_le_one (df : Dataframe) (c s : String) :
    ((df.distinct c).data).countP (fun r => getF r c == some s) ≤ 1 :=
  countP_le_one_of_pairwise _ c s (distinctAux_keys c df.data []).1

theorem travelTimeRender_natCast (d : Nat) : travelTimeRender (d : Int) = claimRender d := by
  unfold travelTimeRender claimRender
  have h1 : (d : Int) / 60 = ((d / 60 : Nat) : Int) := by omega
  have h2 : (d : Int) % 60 = ((d % 60 : Nat) : Int) := by omega
  rw [h1, h2]
  simp only [Nat.cast_eq_zero, Ne, Nat.cast_eq_one, Int.toNat_natCast]
  by_cases h0 : d / 60 = 0 <;> by_cases hh1 : d / 60 = 1 <;> by_cases m1 : d % 60 = 1 <;>
    simp [h0, hh1, m1, String.append_assoc]

/-! ## Claim theorems -/

/-- Claim C1, counterexample.  The claim predicts that a departure at
10:05:01 is excluded from the window of `now = 2024-08-29T09:55:00+10:00`
(window end 10:05:00), yet `filterTripsForUpcomingDepartures` returns that
stop-time: the code parses only the HH and MM components and zeroes the
seconds, so 10:05:01 is treated as 10:05:00.  The second conjunct records
that the actual departure instant lies strictly beyond the window end. -/
theorem c1_counterexample :
    filterTripsForUpcomingDepartures exStopTimes exTrips exRoutes "66" exStartStop exEndStop
      (mkInstant 2024 8 29 9 55 0) exCalendar exCalendarDates
      = .ok [⟨rowDep100501, none, some "r66"⟩]
    ∧ mkInstant 2024 8 29 10 5 1 > mkInstant 2024 8 29 9 55 0 + 600 := by
  constructor
  · rfl
  · decide

/-- Claim C1, amended.  For every stop-time at the origin stop on an active
service of the requested route, `filterTripsForUpcomingDepartures` includes
it iff its departure clock time (falling back to arrival time) truncated to
whole minutes — the code parses only HH and MM and zeroes seconds — and
projected onto now's local calendar date lies in the closed window
[now, now + 10 minutes]; in particular a 10:05:01 departure truncates to
10:05:00 and is included. -/
theorem c1_amended_window_minute_truncation
    (stopTimesDF tripsDF routesDF : Dataframe) (route : String)
    (startStop endStop : Row) (now : Int) (calendarDF calendarDatesDF : Dataframe)
    (r trip routeInfo : Row) (dt : String) (h m : Int) (res : List TripCandidate)
    (h1 : getF r "stop_id" = getF startStop "stop_id")
    (h2 : (tripsDF.filter (fun t => getF t "trip_id" == getF r "trip_id")).data.head? = some trip)
    (h3 : isServiceRunning calendarDF calendarDatesDF (getF trip "service_id") now = .ok true)
    (h4 : (routesDF.filter (fun x => getF x "route_id" == getF trip "route_id")).data.head?
      = some routeInfo)
    (h5 : getF routeInfo "route_short_name" = some route)
    (h6 : jsOr (getF r "departure_time") (getF r "arrival_time") = some dt)
    (h7 : ((jsSplit dt ':').get? 0).bind jsNumber = some h)
    (h8 : ((jsSplit dt ':').get? 1).bind jsNumber = some m)
    (h9 : filterTripsForUpcomingDepartures stopTimesDF tripsDF routesDF route startStop endStop
      now calendarDF calendarDatesDF = .ok res) :
    (∃ e ∈ res, e.startStopTime = r) ↔
      (r ∈ stopTimesDF.data ∧ now ≤ setHoursLocal now h m ∧ setHoursLocal now h m ≤ now + 600) := by
  have hpred : departureWindowPred tripsDF routesDF route startStop now (now + 600)
      calendarDF calendarDatesDF r
      = .ok (decide (now ≤ setHoursLocal now h m) && decide (setHoursLocal now h m ≤ now + 600)) := by
    simp only [departureWindowPred, h1, beq_self_eq_true, if_true, h2, h3, h4, h5, h6, h7, h8,
      Bool.not_true, Bool.false_eq_true, if_false]
  rw [filterTripsForUpcomingDepartures] at h9
  cases hf : filterE (departureWindowPred tripsDF routesDF route startStop now (now + 600)
      calendarDF calendarDatesDF) stopTimesDF.data with
  | error e => rw [hf] at h9; cases h9
  | ok fs =>
    rw [hf] at h9
    cases h9
    have hmm := filterE_mem _ _ _ hf r
    constructor
    · rintro ⟨e, he, hes⟩
      rcases List.mem_map.mp he with ⟨r2, hr2, rfl⟩
      have hr2r : r2 = r := hes
      subst hr2r
      have h10 := hmm.mp hr2
      refine ⟨h10.1, ?_, ?_⟩
      · rw [hpred] at h10
        have hb := Except.ok.inj h10.2
        exact of_decide_eq_true ((Bool.and_eq_true _ _).mp hb).1
      · rw [hpred] at h10
        have hb := Except.ok.inj h10.2
        exact of_decide_eq_true ((Bool.and_eq_true _ _).mp hb).2
    · rintro ⟨hmem2, hw1, hw2⟩
      have hok : departureWindowPred tripsDF routesDF route startStop now (now + 600)
          calendarDF calendarDatesDF r = .ok true := by
        rw [hpred, decide_eq_true hw1, decide_eq_true hw2]
        rfl
      have hr : r ∈ fs := hmm.mpr ⟨hmem2, hok⟩
      exact ⟨mkTripCandidate stopTimesDF tripsDF endStop r, List.mem_map_of_mem _ hr, rfl⟩

/-- Claim C1 witness: the amended statement applied to the concrete
"10:00:00 departure, now 09:55" tables. -/
theorem c1_amended_window_minute_truncation_witness :
    (∃ e ∈ [TripCandidate.mk rowDep100000 none (some "r66")], e.startStopTime = rowDep100000) ↔
      (rowDep100000 ∈ exStopTimesOnTime.data
        ∧ mkInstant 2024 8 29 9 55 0 ≤ setHoursLocal (mkInstant 2024 8 29 9 55 0) 10 0
        ∧ setHoursLocal (mkInstant 2024 8 29 9 55 0) 10 0 ≤ mkInstant 2024 8 29 9 55 0 + 600) :=
  c1_amended_window_minute_truncation exStopTimesOnTime exTrips exRoutes "66" exStartStop
    exEndStop (mkInstant 2024 8 29 9 55 0) exCalendar exCalendarDates
    rowDep100000 rowTripT1 rowRoute66 "10:00:00" 10 0
    [TripCandidate.mk rowDep100000 none (some "r66")]
    (by rfl) (by rfl) (by rfl) (by rfl) (by rfl) (by rfl) (by rfl) (by rfl) (by rfl)

/-- Claim C2, counterexample.  The claim says `matchLiveData` admits feed
entries whose route id matches under the before-first-hyphen normalization
and whose per-stop list contains the target stop.  Here the queried static
route id `66-3735` normalizes to the feed entry's `66-3734` (conjunct 2),
the entry's trip id equals the queried one and its per-stop list contains
the target stop (conjunct 3), so under the claim the entry is selected and
a live arrival is produced — yet the function returns both sentinels,
because it compares route ids with strict equality. -/
theorem c2_counterexample :
    matchLiveData (some [tuVariantRoute]) (some []) rowLiveStop "66-3735" "t1"
      = .ok ⟨"N/A", "N/A"⟩
    ∧ matchRouteIds "66-3735" "66-3734" = true
    ∧ stusVariant.any (fun s => s.stopId == getF rowLiveStop "stop_id") = true := by
  refine ⟨rfl, rfl, rfl⟩

/-- Claim C2, amended.  `matchLiveData` applies no normalization and no
closest-time selection: it selects the first feed entry whose trip
descriptor is present and whose trip id and route id are strictly equal to
the queried ones.  Part 1: when no entry matches strictly — even if some
match under normalization and contain the stop — both fields are the
sentinel.  Part 2: of two strictly-matching entries the first encountered is
used, even though the second's prediction (10:01) is numerically closer to
the scheduled arrival time (10:01:00) than the first's (10:00). -/
theorem c2_amended_exact_match_selection :
    (∀ (l : List LiveEntity) (v : List VehicleEntity) (st : Row) (routeId tripId : String),
      (∀ u ∈ l, claimExactMatch u routeId tripId = false) →
      matchLiveData (some l) (some v) st routeId tripId = .ok ⟨"N/A", "N/A"⟩)
    ∧ matchLiveData (some [tuExactA, tuExactB]) (some []) rowLiveStop "66-3734" "t1"
      = .ok ⟨"10:00", "N/A"⟩ := by
  constructor
  · intro l v st routeId tripId hnone
    have hfind : l.find? (tripUpdateMatches tripId routeId) = none := by
      apply List.find?_eq_none.mpr
      intro u hu
      have h0 : tripUpdateMatches tripId routeId u = false := hnone u hu
      simp [h0]
    rw [matchLiveData, hfind]
  · rfl

/-- Claim C2 witness: part 1 of the amended statement applied to the empty
feed, whose entries vacuously all fail the strict match. -/
theorem c2_amended_exact_match_selection_witness :
    matchLiveData (some []) (some []) rowLiveStop "66-3735" "t1" = .ok ⟨"N/A", "N/A"⟩ :=
  c2_amended_exact_match_selection.1 [] [] rowLiveStop "66-3735" "t1" (by simp)

/-- Claim C3: the code contradicts the claimed totality in two places.
First, a stop-time whose trip's `route_id` resolves to no route row is not
silently skipped: the filter reads `routeInfo.route_short_name` without a
null check and throws a `TypeError` (here the routes table is empty, the
trip exists and its service is active).  Second, a matched trip update with
no stop-time-update list does not yield the sentinel: the code calls
`.find` on the absent list and throws. -/
theorem c3_totality_violated :
    filterTripsForUpcomingDepartures exStopTimesOnTime exTripsNoRoute ⟨[]⟩ "66"
      exStartStop exEndStop (mkInstant 2024 8 29 9 55 0) exCalendar exCalendarDates
      = .error "TypeError: cannot read route_short_name of undefined"
    ∧ matchLiveData (some [tuNoStuList]) (some []) rowLiveStop "r1" "t1"
      = .error "TypeError: cannot read find of undefined" := by
  refine ⟨rfl, rfl⟩

/-- Claim C4, counterexample.  The claim says the date-range comparison is by
calendar date only, independent of the time-of-day of the query instant.
With a calendar row valid exactly on 2024-08-29 (Thursday flag set, no
exceptions), the instants 2024-08-29T10:00+10:00 and 2024-08-29T11:00+10:00
share the local calendar date (conjunct 3), yet `isServiceRunning` answers
`true` for the first and `false` for the second: the code compares the raw
instant against the UTC midnights of `start_date`/`end_date`. -/
theorem c4_counterexample :
    isServiceRunning exCalendarSameDay exCalendarDates (some "s1")
      (mkInstant 2024 8 29 10 0 0) = .ok true
    ∧ isServiceRunning exCalendarSameDay exCalendarDates (some "s1")
      (mkInstant 2024 8 29 11 0 0) = .ok false
    ∧ civilFromDays ((mkInstant 2024 8 29 10 0 0 + tzOffset).fdiv 86400)
      = civilFromDays ((mkInstant 2024 8 29 11 0 0 + tzOffset).fdiv 86400) := by
  refine ⟨rfl, rfl, rfl⟩

/-- Claim C4, amended.  When no calendar-exception row exists for the service
and the UTC date key of the query instant, `isServiceRunning` returns true
iff the instant itself lies between the UTC midnights parsed from
`start_date` and `end_date` (inclusive — so the answer depends on the
time-of-day near the range boundaries) and the local weekday's flag is set. -/
theorem c4_amended_instant_range (calendarDF calendarDatesDF : Dataframe)
    (serviceId : Option String) (t : Int) (cal : Row) (sd ed : String) (S E : Int)
    (hex : (calendarDatesDF.filter (fun row => getF row "service_id" == serviceId
      && getF row "date" == some (utcDateString t))).data.head? = none)
    (hcal : (calendarDF.filter (fun row => getF row "service_id" == serviceId)).data.head?
      = some cal)
    (hsd : getF cal "start_date" = some sd) (hed : getF cal "end_date" = some ed)
    (hS : parseDateUTC sd = some S) (hE : parseDateUTC ed = some E) :
    isServiceRunning calendarDF calendarDatesDF serviceId t = .ok true
      ↔ (S ≤ t ∧ t ≤ E ∧ getF cal (weekdayName t) = some "1") := by
  simp only [isServiceRunning, hex, hcal, hsd, hed, hS, hE, Except.ok.injEq]
  simp [Bool.and_eq_true, beq_iff_eq, and_assoc]

/-- Claim C4 witness: the amended statement applied to the year-long 2024
calendar row at 2024-08-29T20:00+10:00 (a Thursday inside the range). -/
theorem c4_amended_instant_range_witness :
    isServiceRunning exCalendar exCalendarDates (some "s1")
      (mkInstant 2024 8 29 20 0 0) = .ok true :=
  (c4_amended_instant_range exCalendar exCalendarDates (some "s1")
      (mkInstant 2024 8 29 20 0 0) rowCalS1 "20240101" "20241231" 1704067200 1735603200
      rfl rfl rfl rfl rfl rfl).mpr ⟨by decide, by decide, rfl⟩

/-- Claim C5: calendar-exception precedence.  Whenever a calendar-exception
row is found for the service id and the date key of the query instant, the
service runs iff that row's exception type is `'1'` — the weekly calendar
table is quantified over arbitrarily and never consulted, so type 1 yields
`true` even when the weekday's weekly flag is 0, and type 2 yields `false`
even when it is 1. -/
theorem c5_exception_precedence (calendarDF calendarDatesDF : Dataframe)
    (serviceId : Option String) (t : Int) (ex : Row)
    (hex : (calendarDatesDF.filter (fun row => getF row "service_id" == serviceId
      && getF row "date" == some (utcDateString t))).data.head? = some ex) :
    isServiceRunning calendarDF calendarDatesDF serviceId t
      = .ok (getF ex "exception_type" == some "1") := by
  simp only [isServiceRunning, hex]

/-- Claim C5 witness: a type-1 exception on 2024-08-29 makes the service run
although its weekly Thursday flag is 0. -/
theorem c5_exception_precedence_witness :
    isServiceRunning exCalendarNoThursday exCalendarDatesAdded (some "s1")
      (mkInstant 2024 8 29 20 0 0) = .ok (getF rowExceptionAdd "exception_type" == some "1")
    ∧ (getF rowExceptionAdd "exception_type" == some "1") = true :=
  ⟨c5_exception_precedence exCalendarNoThursday exCalendarDatesAdded (some "s1")
      (mkInstant 2024 8 29 20 0 0) rowExceptionAdd rfl, by decide⟩

/-- Claim C6: travel time.  For all HH:MM inputs (hour and minute values in
range; a third seconds component is ignored by the split-and-take-two
destructuring), `calculateTravelTime`'s arithmetic core equals the spec's
`(end − start + 1440) mod 1440` with a zero result promoted to 1440 minutes,
rendered as `H hour(s) M minute(s)` with the hour term omitted exactly when
the hour count is zero and each unit pluralized unless its value is 1; the
spec's four example evaluations hold, the start==end case rendering the full
24-hour trip as `24 hours 0 minutes`. -/
theorem c6_travel_time :
    (∀ (sh sm eh em : Nat), sh < 24 → sm < 60 → eh < 24 → em < 60 →
      travelTimeCore sh sm eh em = claimRender (claimTravelMinutes (sh * 60 + sm) (eh * 60 + em)))
    ∧ calculateTravelTime "10:00" "10:30" = "30 minutes"
    ∧ calculateTravelTime "10:00" "11:30" = "1 hour 30 minutes"
    ∧ calculateTravelTime "23:50" "00:10" = "20 minutes"
    ∧ calculateTravelTime "10:00" "10:00" = "24 hours 0 minutes" := by
  refine ⟨?_, rfl, rfl, rfl, rfl⟩
  intro sh sm eh em hsh hsm heh hem
  have hcore : travelTimeCore (sh : Int) (sm : Int) (eh : Int) (em : Int)
      = travelTimeRender (if (((eh : Int) * 60 + (em : Int))
            - ((sh : Int) * 60 + (sm : Int)) + 1440) % 1440 = 0
          then 1440
          else (((eh : Int) * 60 + (em : Int)) - ((sh : Int) * 60 + (sm : Int)) + 1440) % 1440) :=
    rfl
  have hx : (((eh : Int) * 60 + (em : Int)) - ((sh : Int) * 60 + (sm : Int)) + 1440) % 1440
      = (((eh * 60 + em) + 1440 - (sh * 60 + sm)) % 1440 : Nat) := by
    omega
  rw [hcore, hx]
  unfold claimTravelMinutes
  by_cases hb : ((eh * 60 + em) + 1440 - (sh * 60 + sm)) % 1440 = 0
  · rw [hb, if_pos rfl, if_pos (by exact_mod_cast rfl)]
    exact travelTimeRender_natCast 1440
  · rw [if_neg (by exact_mod_cast hb), if_neg hb]
    exact travelTimeRender_natCast _

/-- Claim C6 witness: the universal part applied at 10:00 → 11:30, whose
rendering is `1 hour 30 minutes`. -/
theorem c6_travel_time_witness :
    travelTimeCore 10 0 11 30 = claimRender (claimTravelMinutes (10 * 60 + 0) (11 * 60 + 30))
    ∧ claimRender (claimTravelMinutes (10 * 60 + 0) (11 * 60 + 30)) = "1 hour 30 minutes" :=
  ⟨c6_travel_time.1 10 0 11 30 (by decide) (by decide) (by decide) (by decide), by decide⟩

/-- Claim C7, counterexample.  The claim says no stop identifier occurs more
than once in the list returned by `getRouteStops`.  On a route whose
outbound trip serves A then B and whose inbound trip serves B then A, the
returned list contains stop id `B` twice: deduplication is applied per
direction, and the concatenation keeps one occurrence from each direction
(the closed-loop collapse removes only the duplicated terminus `A`). -/
theorem c7_counterexample :
    (getRouteStops "66" loopRoutes loopStops loopStopTimes loopTrips).countP
      (fun r => getF r "stop_id" == some "B") = 2 := by
  rfl

/-- Claim C7, amended.  `getRouteStops` deduplicates per direction, not
globally: each stop identifier occurs at most once in the outbound segment
and at most once in the inbound segment, hence at most twice in the returned
list (a stop served in both directions appears once per direction). -/
theorem c7_amended_per_direction_dedup (route : String)
    (routesDF stopsDF stopTimesDF tripsDF : Dataframe) (s : String) :
    (getRouteStops route routesDF stopsDF stopTimesDF tripsDF).countP
      (fun r => getF r "stop_id" == some s) ≤ 2 := by
  have hcomb : (getRouteStopsCombined route routesDF stopsDF stopTimesDF tripsDF).countP
      (fun r => getF r "stop_id" == some s) ≤ 2 := by
    rw [getRouteStopsCombined]
    cases hh : (routesDF.filter
        (fun row => getF row "route_short_name" == some route)).data.head? with
    | none => simp
    | some routeInfo =>
      dsimp only
      rw [List.countP_append]
      exact Nat.add_le_add (distinct_countP_le_one _ _ _) (distinct_countP_le_one _ _ _)
  rw [getRouteStops]
  cases h1 : (getRouteStopsCombined route routesDF stopsDF stopTimesDF tripsDF).head? with
  | none => simpa [h1] using hcomb
  | some first =>
    cases h2 : (getRouteStopsCombined route routesDF stopsDF stopTimesDF tripsDF).getLast? with
    | none => simpa [h1, h2] using hcomb
    | some last =>
      simp only [h1, h2]
      by_cases heq : getF first "stop_id" == getF last "stop_id"
      · rw [if_pos heq]
        calc (getRouteStopsCombined route routesDF stopsDF stopTimesDF
                tripsDF).dropLast.countP (fun r => getF r "stop_id" == some s)
            ≤ (getRouteStopsCombined route routesDF stopsDF stopTimesDF tripsDF).countP
              (fun r => getF r "stop_id" == some s) :=
              (List.dropLast_sublist _).countP_le _
          _ ≤ 2 := hcomb
      · rw [if_neg heq]
        exact hcomb

/-- Claim C8, counterexample.  The claim says a one-entry combined sequence
is returned unchanged.  On a route whose combined sequence is the single
stop A, the guard `length > 0 && first.stop_id === last.stop_id` is true
(the one entry is its own first and last), so the entry is popped and
`getRouteStops` returns the empty list. -/
theorem c8_counterexample :
    getRouteStopsCombined "66" loopRoutes loopStops singleStopTimes loopTrips = [rowSingleA]
    ∧ getRouteStops "66" loopRoutes loopStops singleStopTimes loopTrips = [] := by
  refine ⟨rfl, rfl⟩

/-- Claim C8, amended.  `getRouteStops` drops the final entry of the
concatenated outbound-then-inbound sequence iff the sequence is nonempty and
its first and last entries share a stop identifier — including the
degenerate one-entry sequence, which is its own first and last and therefore
collapses to the empty list. -/
theorem c8_amended_nonempty_collapse (route : String)
    (routesDF stopsDF stopTimesDF tripsDF : Dataframe)
    (c : List Row) (first last : Row)
    (hc : c = getRouteStopsCombined route routesDF stopsDF stopTimesDF tripsDF)
    (h1 : c.head? = some first) (h2 : c.getLast? = some last) :
    getRouteStops route routesDF stopsDF stopTimesDF tripsDF
      = (if getF first "stop_id" == getF last "stop_id" then c.dropLast else c) := by
  subst hc
  rw [getRouteStops, h1, h2]

/-- Claim C8 witness: the amended statement applied to the one-entry
sequence, which collapses to the empty list. -/
theorem c8_amended_nonempty_collapse_witness :
    getRouteStops "66" loopRoutes loopStops singleStopTimes loopTrips
      = (if getF rowSingleA "stop_id" == getF rowSingleA "stop_id"
          then [rowSingleA].dropLast else [rowSingleA])
    ∧ (if getF rowSingleA "stop_id" == getF rowSingleA "stop_id"
          then List.dropLast [rowSingleA] else [rowSingleA]) = ([] : List Row) :=
  ⟨c8_amended_nonempty_collapse "66" loopRoutes loopStops singleStopTimes loopTrips
      [rowSingleA] rowSingleA rowSingleA (by rfl) rfl rfl, by decide⟩

/-- Claim C9: live-data degradation.  When either feed argument is
null/absent, `matchLiveData` returns the `'N/A'` sentinel for both the
live-arrival field and the live-position field and throws nothing (the
result is an `.ok` value, never an `.error`). -/
theorem c9_null_feed_sentinels :
    ∀ (tus : Option (List LiveEntity)) (vps : Option (List VehicleEntity))
      (st : Row) (routeId tripId : String),
      matchLiveData none vps st routeId tripId = .ok ⟨"N/A", "N/A"⟩
      ∧ matchLiveData tus none st routeId tripId = .ok ⟨"N/A", "N/A"⟩ := by
  intro tus vps st routeId tripId
  constructor
  · rfl
  · cases tus with
    | none => rfl
    | some l => rfl

/-- Claim C10: `distinct` is idempotent — for every `Dataframe` and column
name, applying `distinct` twice yields exactly the rows, in the same order,
of applying it once. -/
theorem c10_distinct_idempotent (df : Dataframe) (c : String) :
    (df.distinct c).distinct c = df.distinct c := by
  show Dataframe.mk (distinctAux c (distinctAux c df.data []) [])
      = Dataframe.mk (distinctAux c df.data [])
  congr 1
  apply distinctAux_fixed
  · exact (distinctAux_keys c df.data []).1
  · intro r _
    rfl
